import Mathlib

/-!
Shallow embedding of the sidecar process supervisor from
`apps/desktop/src-tauri/src/sidecar.rs` (with the `Config` record from
`apps/desktop/src-tauri/src/config.rs`).

The Rust code is stateful and talks to the OS (process spawning, `try_wait`
polling, `kill`, the `which` probe, the filesystem, the wall clock, and a
poisoned-lock possibility on the `Mutex`).  Every OS interaction is modelled
as an oracle value supplied per call in an environment record, and each
public operation (`start`, `stop`, `status`) is a pure function from
(environment, state) to (result, new state, trace of OS events).  The event
trace records, in order, which OS interactions the operation performed
(`try_wait` polls, `kill`, `wait`, `spawn`), so that claims about *what the
code does to the OS* (e.g. "polls before proceeding", "spawns exactly one
process") are statable.
-/

namespace Simplestclaw

/-- `std::time::Duration` reading of `SystemTime::now().duration_since(UNIX_EPOCH)`:
seconds and the sub-second nanoseconds, as used by `generate_token`. -/
structure Duration where
  secs : Nat
  nanos : Nat
deriving DecidableEq, Repr

/-- `GatewayInfo` from sidecar.rs: WebSocket url, port, auth token. -/
structure GatewayInfo where
  url : String
  port : Nat
  token : String
deriving DecidableEq, Repr

/-- `GatewayStatus` from sidecar.rs. -/
structure GatewayStatus where
  running : Bool
  info : Option GatewayInfo
deriving DecidableEq, Repr

/-- `SidecarState` from sidecar.rs: the `Child` handle is modelled by an
opaque numeric process identity (the code never inspects the handle other
than via the OS calls we trace). -/
structure SidecarState where
  child : Option Nat
  info : Option GatewayInfo
deriving DecidableEq, Repr

/-- `Config` from config.rs. -/
structure Config where
  anthropic_api_key : Option String
  gateway_port : Nat
  auto_start_gateway : Bool
deriving DecidableEq, Repr

def default_port : Nat := 18789

def default_auto_start : Bool := true

def Config.defaultConfig : Config :=
  { anthropic_api_key := none
    gateway_port := default_port
    auto_start_gateway := default_auto_start }

/-- Outcome of `child.try_wait()`: `Ok(Some(_))` = exited,
`Ok(None)` = still alive, `Err(_)` = poll error. -/
inductive PollResult
  | exited
  | stillAlive
  | pollError
deriving DecidableEq, Repr

/-- OS interactions a supervisor operation performs, in order. -/
inductive OsEvent
  | tryWaitEv (r : PollResult)
  | killEv (ok : Bool)
  | waitEv
  | spawnEv (ok : Bool)
deriving DecidableEq, Repr

def OsEvent.isSpawnOk : OsEvent → Bool
  | .spawnEv true => true
  | _ => false

def OsEvent.isPoll : OsEvent → Bool
  | .tryWaitEv _ => true
  | _ => false

/-- Number of successful process spawns recorded in a trace. -/
def spawnCount (evs : List OsEvent) : Nat :=
  evs.countP OsEvent.isSpawnOk

/-- Number of `try_wait` polls recorded in a trace. -/
def pollCount (evs : List OsEvent) : Nat :=
  evs.countP OsEvent.isPoll

/-- Lowercase hex rendering of a `Nat`, matching Rust `format!("{:x}", n)`
(no leading zeros; `0` renders as `"0"`). -/
def hexStr (n : Nat) : String :=
  String.mk (Nat.toDigits 16 n)

/-- `generate_token` from sidecar.rs.  The only input of the Rust function
is the wall-clock reading; `none` models `duration_since(UNIX_EPOCH)`
failing, in which case `unwrap_or_default()` yields the zero duration. -/
def generate_token (clock : Option Duration) : String :=
  let duration := clock.getD ⟨0, 0⟩
  "sclw-" ++ hexStr duration.secs ++ hexStr duration.nanos

/-- Environment of one `find_openclaw` call:
`whichOutput`: `none` if `Command::new("which").arg("openclaw").output()`
itself errored, otherwise `some (status.success, stdout)`;
`home`: the `HOME` environment variable if set;
`pathExists`: the filesystem predicate `Path::new(loc).exists()`. -/
structure LocateEnv where
  whichOutput : Option (Bool × String)
  home : Option String
  pathExists : String → Bool

/-- Rust `str::trim` modelled on the character list: drop whitespace from
both ends.  (Defined on `List Char` so that concrete runs evaluate; the
library `String.trim` is implemented with byte-position loops that do not
reduce.) -/
def trimChars (cs : List Char) : List Char :=
  ((cs.dropWhile Char.isWhitespace).reverse.dropWhile Char.isWhitespace).reverse

/-- Rust `str::trim` on strings. -/
def trimStr (s : String) : String :=
  String.mk (trimChars s.data)

/-- The fixed candidate list `npm_locations` from `find_openclaw`. -/
def npm_locations (home : String) : List String :=
  [ home ++ "/.npm-global/bin/openclaw",
    home ++ "/node_modules/.bin/openclaw",
    "/usr/local/bin/openclaw",
    "/opt/homebrew/bin/openclaw" ]

/-- `find_openclaw` from sidecar.rs.  Note the two `?` short-circuits of the
Rust code: an erroring `which` invocation, or an unset `HOME`, abort the
whole search with `None` without consulting the fixed locations. -/
def find_openclaw (env : LocateEnv) : Option String :=
  match env.whichOutput with
  | none => none
  | some (success, stdout) =>
    let path := trimStr stdout
    if success && path != "" then some path
    else
      match env.home with
      | none => none
      | some home => (npm_locations home).find? env.pathExists

/-- The errors `SidecarManager::start` can return (the Rust code returns
`Err(String)`; each constructor tags one distinct `Err` site). -/
inductive StartError
  | lockPoisoned (msg : String)
  | configLoadFailed (msg : String)
  | noApiKey
  | openclawNotFound
  | spawnFailed (msg : String)
deriving DecidableEq, Repr

/-- The literal strings the Rust `start` produces for each error. -/
def StartError.render : StartError → String
  | .lockPoisoned m => m
  | .configLoadFailed m => "Failed to load config: " ++ m
  | .noApiKey => "No API key configured. Please enter your Anthropic API key."
  | .openclawNotFound =>
      "OpenClaw not found. Please install it with: npm install -g openclaw\n" ++
      "See: https://docs.clawd.bot/install"
  | .spawnFailed m => "Failed to spawn gateway: " ++ m

/-- Oracle environment of one `start` call. -/
structure StartEnv where
  lockOk : Bool
  poll : PollResult
  configLoad : Except String Config
  clock : Option Duration
  locate : LocateEnv
  spawnResult : Except String Nat

/-- Oracle environment of one `stop` call. -/
structure StopEnv where
  lockOk : Bool
  killResult : Except String Unit
deriving Repr

/-- Oracle environment of one `status` call. -/
structure StatusEnv where
  lockOk : Bool
  poll : PollResult
deriving DecidableEq, Repr

/-- The message `PoisonError::to_string()` produces. -/
def lockErrMsg : String := "poisoned lock: another task failed inside"

/-- The reconciliation block shared by `start` and `status`: if a child
handle is held, `try_wait` it; `Ok(Some(_))` or `Err(_)` clears both fields,
`Ok(None)` leaves the state alone.  Returns the reconciled state and the
trace of the poll. -/
def reconcile (poll : PollResult) (st : SidecarState) :
    SidecarState × List OsEvent :=
  match st.child with
  | none => (st, [])
  | some _ =>
    match poll with
    | .exited => (⟨none, none⟩, [.tryWaitEv .exited])
    | .stillAlive => (st, [.tryWaitEv .stillAlive])
    | .pollError => (⟨none, none⟩, [.tryWaitEv .pollError])

/-- The `GatewayInfo` value `start` constructs after a successful spawn:
`GatewayInfo { url: format!("ws://localhost:{}", port), port, token }`. -/
def mkGatewayInfo (port : Nat) (token : String) : GatewayInfo :=
  { url := "ws://localhost:" ++ toString port
    port := port
    token := token }

namespace SidecarManager

/-- The tail of `SidecarManager::start` after the reconciliation block has
run (state `st1`, OS events `evs` so far) and no early return happened:
load config, require the API key, generate a token, resolve the
executable, spawn, and on success store `{child, info}` and return the
info.  Every error path leaves the state as reconciliation left it. -/
def startAfterReconcile (env : StartEnv) (st1 : SidecarState)
    (evs : List OsEvent) :
    Except StartError GatewayInfo × SidecarState × List OsEvent :=
  match env.configLoad with
  | .error e => (.error (.configLoadFailed e), st1, evs)
  | .ok config =>
    match config.anthropic_api_key with
    | none => (.error .noApiKey, st1, evs)
    | some _apiKey =>
      match find_openclaw env.locate with
      | none => (.error .openclawNotFound, st1, evs)
      | some _cmd =>
        match env.spawnResult with
        | .error e =>
            (.error (.spawnFailed e), st1, evs ++ [.spawnEv false])
        | .ok childId =>
            (.ok (mkGatewayInfo config.gateway_port (generate_token env.clock)),
             ⟨some childId,
              some (mkGatewayInfo config.gateway_port (generate_token env.clock))⟩,
             evs ++ [.spawnEv true])

/-- `SidecarManager::start`.  Mirrors sidecar.rs lines 74-148: lock, then
reconcile; early-return the existing info when the child is alive and an
info snapshot is present (the state then being untouched and the only OS
event the `try_wait` poll); otherwise continue with
`startAfterReconcile`. -/
def start (env : StartEnv) (st : SidecarState) :
    Except StartError GatewayInfo × SidecarState × List OsEvent :=
  if env.lockOk = false then
    (.error (.lockPoisoned lockErrMsg), st, [])
  else
    match st.child, env.poll, st.info with
    | some _, .stillAlive, some i => (.ok i, st, [.tryWaitEv .stillAlive])
    | _, _, _ =>
        startAfterReconcile env (reconcile env.poll st).1 (reconcile env.poll st).2

/-- `SidecarManager::stop`.  Mirrors sidecar.rs lines 151-165: lock; if a
child handle is held, `kill()` it — the `?` on `kill` returns the error
immediately, *before* the two clearing assignments — then `wait()`; finally
clear both fields and return `Ok`. -/
def stop (env : StopEnv) (st : SidecarState) :
    Except String Unit × SidecarState × List OsEvent :=
  if env.lockOk = false then
    (.error lockErrMsg, st, [])
  else
    match st.child with
    | some _ =>
      match env.killResult with
      | .error e =>
          (.error ("Failed to stop gateway: " ++ e), st, [.killEv false])
      | .ok _ => (.ok (), ⟨none, none⟩, [.killEv true, .waitEv])
    | none => (.ok (), ⟨none, none⟩, [])

/-- `SidecarManager::status`.  Mirrors sidecar.rs lines 168-197: a failed
lock acquisition returns `{running: false, info: None}`; otherwise reconcile
and report `{running: child.is_some(), info}`. -/
def status (env : StatusEnv) (st : SidecarState) :
    GatewayStatus × SidecarState × List OsEvent :=
  if env.lockOk = false then
    (⟨false, none⟩, st, [])
  else
    let r := reconcile env.poll st
    (⟨r.1.child.isSome, r.1.info⟩, r.1, r.2)

end SidecarManager

/-- One public operation together with its oracle environment. -/
inductive SidecarOp
  | opStart (env : StartEnv)
  | opStop (env : StopEnv)
  | opStatus (env : StatusEnv)

/-- State transition of one operation (result and trace dropped). -/
def applyOp (st : SidecarState) (op : SidecarOp) : SidecarState :=
  match op with
  | .opStart e => (SidecarManager.start e st).2.1
  | .opStop e => (SidecarManager.stop e st).2.1
  | .opStatus e => (SidecarManager.status e st).2.1

/-- `SidecarState::default()`: both fields absent. -/
def initialState : SidecarState := ⟨none, none⟩

/-- Run a sequence of operations from the initial state. -/
def runOps (ops : List SidecarOp) : SidecarState :=
  ops.foldl applyOp initialState

/-- The pair invariant of the spec: `child` absent iff `info` absent. -/
def pairInvariant (st : SidecarState) : Prop :=
  st.child.isSome = st.info.isSome

instance (st : SidecarState) : Decidable (pairInvariant st) := by
  unfold pairInvariant; infer_instance

/-- A sample info snapshot used in concrete runs. -/
def sampleInfo : GatewayInfo :=
  { url := "ws://localhost:18789", port := 18789, token := "sclw-10" }

/-! ## Helper lemmas -/

theorem reconcile_state (p : PollResult) (st : SidecarState) :
    (reconcile p st).1 = st ∨ (reconcile p st).1 = ⟨none, none⟩ := by
  rcases st with ⟨_ | c, info⟩ <;> cases p <;> simp [reconcile]

theorem startAfterReconcile_state (env : StartEnv) (st1 : SidecarState)
    (evs : List OsEvent) :
    (SidecarManager.startAfterReconcile env st1 evs).2.1 = st1 ∨
    ∃ c i, (SidecarManager.startAfterReconcile env st1 evs).2.1
      = ⟨some c, some i⟩ := by
  unfold SidecarManager.startAfterReconcile
  split
  · exact Or.inl rfl
  · split
    · exact Or.inl rfl
    · split
      · exact Or.inl rfl
      · split
        · exact Or.inl rfl
        · exact Or.inr ⟨_, _, rfl⟩

theorem startAfterReconcile_error (env : StartEnv) (st1 : SidecarState)
    (evs : List OsEvent) (err : StartError)
    (h : (SidecarManager.startAfterReconcile env st1 evs).1 = .error err) :
    (SidecarManager.startAfterReconcile env st1 evs).2.1 = st1 := by
  unfold SidecarManager.startAfterReconcile at h ⊢
  split at h
  · rfl
  · split at h
    · rfl
    · split at h
      · rfl
      · split at h
        · rfl
        · exact absurd h (by simp)

theorem startAfterReconcile_ok (env : StartEnv) (st1 : SidecarState)
    (evs : List OsEvent) (i : GatewayInfo)
    (h : (SidecarManager.startAfterReconcile env st1 evs).1 = .ok i) :
    ∃ config c, env.configLoad = .ok config ∧ env.spawnResult = .ok c ∧
      i = mkGatewayInfo config.gateway_port (generate_token env.clock) ∧
      (SidecarManager.startAfterReconcile env st1 evs).2.1 = ⟨some c, some i⟩ ∧
      (SidecarManager.startAfterReconcile env st1 evs).2.2
        = evs ++ [.spawnEv true] := by
  unfold SidecarManager.startAfterReconcile at h ⊢
  rcases hc : env.configLoad with e | config
  · rw [hc] at h
    exact absurd h (by simp)
  · simp only [hc] at h ⊢
    rcases hk : config.anthropic_api_key with _ | key
    · rw [hk] at h
      exact absurd h (by simp)
    · simp only [hk] at h ⊢
      rcases hf : find_openclaw env.locate with _ | cmd
      · rw [hf] at h
        exact absurd h (by simp)
      · simp only [hf] at h ⊢
        rcases hs : env.spawnResult with e | c
        · rw [hs] at h
          exact absurd h (by simp)
        · simp only [hs] at h ⊢
          simp only [Except.ok.injEq] at h
          refine ⟨config, c, ?_, ?_, ?_, ?_, ?_⟩ <;>
            first
              | exact hc
              | exact hs
              | exact h.symm
              | (rw [h])
              | rfl
              | trivial

theorem start_state_cases (e : StartEnv) (st : SidecarState) :
    (SidecarManager.start e st).2.1 = st ∨
    (SidecarManager.start e st).2.1 = ⟨none, none⟩ ∨
    ∃ c i, (SidecarManager.start e st).2.1 = ⟨some c, some i⟩ := by
  unfold SidecarManager.start
  split
  · exact Or.inl rfl
  · split
    · exact Or.inl rfl
    · rcases startAfterReconcile_state e (reconcile e.poll st).1
          (reconcile e.poll st).2 with hs | ⟨c, i, hs⟩
      · rw [hs]
        rcases reconcile_state e.poll st with hr | hr <;> rw [hr]
        · exact Or.inl rfl
        · exact Or.inr (Or.inl rfl)
      · rw [hs]
        exact Or.inr (Or.inr ⟨c, i, rfl⟩)

theorem applyOp_pairInvariant (st : SidecarState) (op : SidecarOp)
    (h : pairInvariant st) : pairInvariant (applyOp st op) := by
  unfold pairInvariant at h ⊢
  cases op with
  | opStart e =>
    show ((SidecarManager.start e st).2.1).child.isSome
        = ((SidecarManager.start e st).2.1).info.isSome
    rcases start_state_cases e st with hs | hs | ⟨c, i, hs⟩ <;> rw [hs]
    · exact h
    · rfl
    · rfl
  | opStop e =>
    rcases st with ⟨_ | c, info⟩ <;>
      rcases e with ⟨_ | _, _ | k⟩ <;>
      simp_all [applyOp, SidecarManager.stop]
  | opStatus e =>
    rcases st with ⟨_ | c, info⟩ <;>
      rcases e with ⟨_ | _, p⟩ <;>
      rcases p with _ | _ | _ <;>
      simp_all [applyOp, SidecarManager.status, reconcile]

theorem start_ok_spawn (e : StartEnv) (st : SidecarState) (i : GatewayInfo)
    (hok : (SidecarManager.start e st).1 = .ok i)
    (hsp : spawnCount (SidecarManager.start e st).2.2 = 1) :
    ∃ config c, e.configLoad = .ok config ∧ e.spawnResult = .ok c ∧
      i = mkGatewayInfo config.gateway_port (generate_token e.clock) ∧
      (SidecarManager.start e st).2.1 = ⟨some c, some i⟩ := by
  obtain ⟨lockOk, poll, configLoad, clock, locate, spawnResult⟩ := e
  rcases st with ⟨child, info⟩
  cases lockOk
  · exact absurd hok (by simp [SidecarManager.start])
  · rcases child with _ | c0 <;> rcases poll with _ | _ | _ <;>
      rcases info with _ | i0 <;>
      simp only [SidecarManager.start, reconcile, Bool.true_eq_false,
        if_false] at hok hsp ⊢ <;>
      first
        | (obtain ⟨config, c, h1, h2, h3, h4, _⟩ :=
              startAfterReconcile_ok _ _ _ _ hok;
           exact ⟨config, c, h1, h2, h3, h4⟩)
        | (exact absurd hsp (by decide))

theorem runOps_invariant_aux :
    ∀ (ops : List SidecarOp) (st : SidecarState),
      pairInvariant st → pairInvariant (ops.foldl applyOp st)
  | [], _, h => h
  | op :: rest, st, h =>
      runOps_invariant_aux rest _ (applyOp_pairInvariant st op h)

theorem pairInvariant_reconcile (p : PollResult) (st : SidecarState)
    (h : pairInvariant st) : pairInvariant (reconcile p st).1 := by
  rcases reconcile_state p st with hr | hr <;> rw [hr]
  · exact h
  · rfl

theorem startAfterReconcile_trace (env : StartEnv) (st1 : SidecarState)
    (evs : List OsEvent) :
    ∃ t, (SidecarManager.startAfterReconcile env st1 evs).2.2 = evs ++ t := by
  unfold SidecarManager.startAfterReconcile
  split
  · exact ⟨[], (List.append_nil evs).symm⟩
  · split
    · exact ⟨[], (List.append_nil evs).symm⟩
    · split
      · exact ⟨[], (List.append_nil evs).symm⟩
      · split
        · exact ⟨[.spawnEv false], rfl⟩
        · exact ⟨[.spawnEv true], rfl⟩

theorem startAfterReconcile_trace_head (env : StartEnv) (st1 : SidecarState)
    (a : OsEvent) (evs : List OsEvent) :
    (SidecarManager.startAfterReconcile env st1 (a :: evs)).2.2.head?
      = some a := by
  obtain ⟨t, ht⟩ := startAfterReconcile_trace env st1 (a :: evs)
  rw [ht]
  rfl

theorem find?_some_first {α : Type} (b : α → Bool) :
    ∀ (l : List α) (x : α), l.find? b = some x →
      ∃ pre post, l = pre ++ x :: post ∧ ∀ y ∈ pre, b y = false
  | [], x, hx => absurd hx (by simp)
  | a :: l, x, hx => by
    cases ha : b a
    · rw [List.find?_cons_of_neg _ (by simp [ha])] at hx
      obtain ⟨pre, post, heq, hall⟩ := find?_some_first b l x hx
      refine ⟨a :: pre, post, by rw [heq]; rfl, ?_⟩
      intro y hy
      rcases List.mem_cons.mp hy with rfl | hy
      · exact ha
      · exact hall y hy
    · rw [List.find?_cons_of_pos _ ha] at hx
      injection hx with hx'
      exact ⟨[], l, by rw [hx']; rfl, by simp⟩

/-! ## Claims -/

/-- Claim C1, counterexample.  The claim says that after `stop()` returns a
termination-failure error, both fields are cleared and a following
`status()` reports `{running: false, info: absent}`.  On the concrete state
holding child `1` and an info snapshot, with `kill` failing, `stop` returns
the termination error but leaves both fields set, and the following
`status` reports `{running: true}` with the old info. -/
theorem C1_counterexample :
    (SidecarManager.stop ⟨true, .error "Operation not permitted (os error 1)"⟩
        ⟨some 1, some sampleInfo⟩).1
      = .error "Failed to stop gateway: Operation not permitted (os error 1)" ∧
    (SidecarManager.stop ⟨true, .error "Operation not permitted (os error 1)"⟩
        ⟨some 1, some sampleInfo⟩).2.1
      = ⟨some 1, some sampleInfo⟩ ∧
    (SidecarManager.status ⟨true, .stillAlive⟩
        (SidecarManager.stop ⟨true, .error "Operation not permitted (os error 1)"⟩
          ⟨some 1, some sampleInfo⟩).2.1).1
      = ⟨true, some sampleInfo⟩ := by
  refine ⟨rfl, rfl, rfl⟩

/-- Claim C1, amended.  `stop()` clears both the process handle and the
info snapshot exactly when it returns success (in particular on the
already-idle path); when `kill` fails, the termination error propagates and
the state is left unchanged, not cleared.  After a successful `stop`, a
following `status` reports `{running: false, info: absent}`. -/
theorem C1_stop_clears_on_success (env : StopEnv) (st : SidecarState)
    (p : PollResult) :
    (SidecarManager.stop env st).2.1
      = (match (SidecarManager.stop env st).1 with
         | .ok _ => (⟨none, none⟩ : SidecarState)
         | .error _ => st) ∧
    (SidecarManager.status ⟨true, p⟩ (⟨none, none⟩ : SidecarState)).1
      = ⟨false, none⟩ := by
  obtain ⟨lockOk, killResult⟩ := env
  constructor
  · cases lockOk <;> cases killResult <;>
      rcases st with ⟨_ | c, info⟩ <;>
      simp [SidecarManager.stop]
  · rfl

/-- Claim C8.  `status()` always returns a `GatewayStatus` value (it is a
total function into `GatewayStatus` — no error component), and when the
lock acquisition fails the returned value is exactly
`{running: false, info: absent}`, with the state left untouched. -/
theorem C8_status_never_fails (st : SidecarState) (p : PollResult) :
    (SidecarManager.status ⟨false, p⟩ st).1 = ⟨false, none⟩ ∧
    (SidecarManager.status ⟨false, p⟩ st).2.1 = st := by
  exact ⟨rfl, rfl⟩

/-- Claim C10.  `generate_token` is a deterministic function of the
wall-clock reading: two invocations that observe the same duration since
the Unix epoch (the clock-unavailable case falling back to the zero
duration) produce identical token strings; contrapositively, distinct
tokens require distinct observed durations. -/
theorem C10_token_clock_deterministic (c1 c2 : Option Duration)
    (h : c1.getD ⟨0, 0⟩ = c2.getD ⟨0, 0⟩) :
    generate_token c1 = generate_token c2 ∧
    (generate_token c1 ≠ generate_token c2 → c1.getD ⟨0, 0⟩ ≠ c2.getD ⟨0, 0⟩) := by
  unfold generate_token
  rw [h]
  exact ⟨rfl, fun hne _ => hne rfl⟩

/-- Claim C10, witness: the clock-unavailable zero fallback and an explicit
zero reading produce the same token. -/
theorem C10_witness :
    Option.getD (α := Duration) none ⟨0, 0⟩ = Option.getD (some ⟨0, 0⟩) ⟨0, 0⟩ ∧
    generate_token none = generate_token (some ⟨0, 0⟩) :=
  ⟨rfl, (C10_token_clock_deterministic none (some ⟨0, 0⟩) rfl).1⟩

/-- A locate environment where `which` resolves the executable. -/
def sampleLocate : LocateEnv :=
  { whichOutput := some (true, "/usr/local/bin/openclaw\n")
    home := some "/root"
    pathExists := fun _ => false }

/-- A config with an API key and the default port. -/
def sampleConfig : Config :=
  { anthropic_api_key := some "sk-ant-test"
    gateway_port := 18789
    auto_start_gateway := true }

/-- A start environment where everything succeeds (clock reading 1s 2ns,
spawned child handle 42). -/
def sampleStartEnv : StartEnv :=
  { lockOk := true
    poll := .stillAlive
    configLoad := .ok sampleConfig
    clock := some ⟨1, 2⟩
    locate := sampleLocate
    spawnResult := .ok 42 }

/-- Like `sampleStartEnv` but the loaded config has no API key. -/
def sampleNoKeyEnv : StartEnv :=
  { lockOk := true
    poll := .stillAlive
    configLoad := .ok { anthropic_api_key := none,
                        gateway_port := 18789,
                        auto_start_gateway := true }
    clock := some ⟨1, 2⟩
    locate := sampleLocate
    spawnResult := .ok 42 }

/-- Claim C3.  Starting from the initial state (both fields absent), every
sequence of `start`, `stop` and `status` calls — each with arbitrary OS
oracle outcomes — preserves the invariant that the process handle is absent
iff the info snapshot is absent; consequently every `status` report has
`running = true` exactly when it carries an info snapshot. -/
theorem C3_pair_invariant (ops : List SidecarOp) (e : StatusEnv) :
    pairInvariant (runOps ops) ∧
    (SidecarManager.status e (runOps ops)).1.running
      = ((SidecarManager.status e (runOps ops)).1.info).isSome := by
  have hinv : pairInvariant (runOps ops) :=
    runOps_invariant_aux ops initialState rfl
  refine ⟨hinv, ?_⟩
  rcases e with ⟨_ | _, p⟩
  · rfl
  · exact pairInvariant_reconcile p (runOps ops) hinv

/-- Claim C2.  If a `start` call succeeded by spawning a process (exactly
one spawn in its trace) and the child is still alive when a second `start`
runs (its poll reports alive and its lock is healthy), then the second
call returns the identical `GatewayInfo`, performs no spawn, and the two
calls together spawn exactly one process. -/
theorem C2_idempotent_start (e1 e2 : StartEnv) (st : SidecarState)
    (i1 : GatewayInfo)
    (h1 : (SidecarManager.start e1 st).1 = .ok i1)
    (hsp1 : spawnCount (SidecarManager.start e1 st).2.2 = 1)
    (hlock : e2.lockOk = true)
    (halive : e2.poll = .stillAlive) :
    (SidecarManager.start e2 (SidecarManager.start e1 st).2.1).1 = .ok i1 ∧
    spawnCount
      (SidecarManager.start e2 (SidecarManager.start e1 st).2.1).2.2 = 0 ∧
    spawnCount (SidecarManager.start e1 st).2.2 +
      spawnCount
        (SidecarManager.start e2 (SidecarManager.start e1 st).2.1).2.2 = 1 := by
  obtain ⟨config, c, _, _, _, hstate⟩ := start_ok_spawn e1 st i1 h1 hsp1
  rw [hstate]
  obtain ⟨lockOk2, poll2, c2, k2, l2, s2⟩ := e2
  cases lockOk2
  · exact absurd hlock (by simp)
  · cases poll2
    · exact absurd halive (by simp)
    · refine ⟨rfl, rfl, ?_⟩
      rw [hsp1]
      rfl
    · exact absurd halive (by simp)

/-- Claim C2, witness: a concrete successful spawn followed by a second
`start` on the resulting state. -/
theorem C2_witness :
    (SidecarManager.start sampleStartEnv initialState).1
      = .ok (mkGatewayInfo 18789 "sclw-12") ∧
    spawnCount (SidecarManager.start sampleStartEnv initialState).2.2 = 1 ∧
    sampleStartEnv.lockOk = true ∧
    sampleStartEnv.poll = .stillAlive ∧
    ((SidecarManager.start sampleStartEnv
        (SidecarManager.start sampleStartEnv initialState).2.1).1
      = .ok (mkGatewayInfo 18789 "sclw-12") ∧
     spawnCount (SidecarManager.start sampleStartEnv
        (SidecarManager.start sampleStartEnv initialState).2.1).2.2 = 0 ∧
     spawnCount (SidecarManager.start sampleStartEnv initialState).2.2 +
       spawnCount (SidecarManager.start sampleStartEnv
          (SidecarManager.start sampleStartEnv initialState).2.1).2.2 = 1) :=
  ⟨rfl, rfl, rfl, rfl,
   C2_idempotent_start sampleStartEnv sampleStartEnv initialState
     (mkGatewayInfo 18789 "sclw-12") rfl rfl rfl rfl⟩

/-- Claim C7.  Whenever `start` fails with the no-credential error, the
executable-not-found error, or a spawn error, the state after the call is
idle (both fields absent) — given the pair invariant on entry — and a
following `status` reports `{running: false, info: absent}`. -/
theorem C7_start_failure_idle (e : StartEnv) (st : SidecarState)
    (hinv : pairInvariant st) (err : StartError) (p : PollResult)
    (h : (SidecarManager.start e st).1 = .error err)
    (hkind : err = .noApiKey ∨ err = .openclawNotFound ∨
      ∃ m, err = .spawnFailed m) :
    (SidecarManager.start e st).2.1 = initialState ∧
    (SidecarManager.status ⟨true, p⟩ (SidecarManager.start e st).2.1).1
      = ⟨false, none⟩ := by
  obtain ⟨lockOk, poll, configLoad, clock, locate, spawnResult⟩ := e
  rcases st with ⟨child, info⟩
  have hstate : (SidecarManager.start
      ⟨lockOk, poll, configLoad, clock, locate, spawnResult⟩
      ⟨child, info⟩).2.1 = initialState := by
    cases lockOk
    · rcases hkind with hk | hk | ⟨m, hk⟩ <;> rw [hk] at h <;>
        simp [SidecarManager.start] at h
    · rcases child with _ | c0
      · rcases info with _ | i0
        · simp only [SidecarManager.start, reconcile, Bool.true_eq_false,
            if_false] at h ⊢
          exact startAfterReconcile_error _ _ _ _ h
        · exact absurd hinv (by simp [pairInvariant])
      · rcases poll with _ | _ | _
        · simp only [SidecarManager.start, reconcile, Bool.true_eq_false,
            if_false] at h ⊢
          exact startAfterReconcile_error _ _ _ _ h
        · rcases info with _ | i0
          · exact absurd hinv (by simp [pairInvariant])
          · simp [SidecarManager.start] at h
        · simp only [SidecarManager.start, reconcile, Bool.true_eq_false,
            if_false] at h ⊢
          exact startAfterReconcile_error _ _ _ _ h
  exact ⟨hstate, by rw [hstate]; rfl⟩

/-- Claim C7, witness: a concrete `start` with no API key configured fails
with the no-credential error and leaves the state idle. -/
theorem C7_witness :
    pairInvariant initialState ∧
    (SidecarManager.start sampleNoKeyEnv initialState).1
      = .error .noApiKey ∧
    ((SidecarManager.start sampleNoKeyEnv initialState).2.1 = initialState ∧
     (SidecarManager.status ⟨true, .stillAlive⟩
        (SidecarManager.start sampleNoKeyEnv initialState).2.1).1
       = ⟨false, none⟩) :=
  ⟨rfl, rfl,
   C7_start_failure_idle sampleNoKeyEnv initialState rfl .noApiKey
     .stillAlive rfl (Or.inl rfl)⟩

/-- Claim C9.  Whenever `start` spawns a process successfully, the returned
`GatewayInfo` has url `"ws://localhost:" ++ port`, the configured port, and
the freshly generated token, and exactly that info together with the new
child handle is stored in the supervisor state. -/
theorem C9_spawn_success_info (e : StartEnv) (st : SidecarState)
    (i : GatewayInfo) (config : Config)
    (hc : e.configLoad = .ok config)
    (hok : (SidecarManager.start e st).1 = .ok i)
    (hsp : spawnCount (SidecarManager.start e st).2.2 = 1) :
    i.url = "ws://localhost:" ++ toString config.gateway_port ∧
    i.port = config.gateway_port ∧
    i.token = generate_token e.clock ∧
    (SidecarManager.start e st).2.1.info = some i ∧
    ∃ c, (SidecarManager.start e st).2.1.child = some c ∧
      e.spawnResult = .ok c := by
  obtain ⟨config', c, hc', hs, hi, hstate⟩ := start_ok_spawn e st i hok hsp
  rw [hc] at hc'
  injection hc' with hcc
  subst hcc
  subst hi
  refine ⟨rfl, rfl, rfl, ?_, c, ?_, hs⟩
  · rw [hstate]
  · rw [hstate]

/-- Claim C9, witness: the concrete successful spawn of `sampleStartEnv`
stores and returns `GatewayInfo {url: "ws://localhost:18789", port: 18789,
token: "sclw-12"}`. -/
theorem C9_witness :
    sampleStartEnv.configLoad = .ok sampleConfig ∧
    (SidecarManager.start sampleStartEnv initialState).1
      = .ok (mkGatewayInfo 18789 "sclw-12") ∧
    spawnCount (SidecarManager.start sampleStartEnv initialState).2.2 = 1 ∧
    ((mkGatewayInfo 18789 "sclw-12").url
        = "ws://localhost:" ++ toString sampleConfig.gateway_port ∧
     (mkGatewayInfo 18789 "sclw-12").port = sampleConfig.gateway_port ∧
     (mkGatewayInfo 18789 "sclw-12").token
        = generate_token sampleStartEnv.clock ∧
     (SidecarManager.start sampleStartEnv initialState).2.1.info
        = some (mkGatewayInfo 18789 "sclw-12") ∧
     ∃ c, (SidecarManager.start sampleStartEnv initialState).2.1.child
          = some c ∧
        sampleStartEnv.spawnResult = .ok c) :=
  ⟨rfl, rfl, rfl,
   C9_spawn_success_info sampleStartEnv initialState
     (mkGatewayInfo 18789 "sclw-12") sampleConfig rfl rfl rfl⟩

/-- Claim C4, counterexample.  The claim says every call to `stop` with a
held process handle polls the handle's exit status first.  On the concrete
state holding child `1`, `stop`'s OS trace is kill-then-wait and contains
no `try_wait` poll at all. -/
theorem C4_counterexample :
    (SidecarManager.stop ⟨true, .ok ()⟩ ⟨some 1, some sampleInfo⟩).2.2
      = [.killEv true, .waitEv] ∧
    pollCount (SidecarManager.stop ⟨true, .ok ()⟩
      ⟨some 1, some sampleInfo⟩).2.2 = 0 :=
  ⟨rfl, rfl⟩

/-- Claim C4, amended.  At the start of every `start` and `status` call
(with a healthy lock), if a process handle is held, the first OS
interaction is a non-blocking `try_wait` poll, and an exited or erroring
poll clears both fields (the shared reconciliation block yields the idle
state) before the operation proceeds; `stop`, by contrast, never polls —
it kills the held child unconditionally. -/
theorem C4_reconcile_policy (st : SidecarState) (e : StartEnv)
    (es : StatusEnv) (ev : StopEnv) (pv : PollResult)
    (hc : st.child.isSome = true) (hel : e.lockOk = true)
    (hesl : es.lockOk = true) :
    (SidecarManager.start e st).2.2.head? = some (.tryWaitEv e.poll) ∧
    (SidecarManager.status es st).2.2.head? = some (.tryWaitEv es.poll) ∧
    ((pv = .exited ∨ pv = .pollError) →
      (reconcile pv st).1 = initialState) ∧
    pollCount (SidecarManager.stop ev st).2.2 = 0 := by
  rcases st with ⟨child, info⟩
  rcases child with _ | c0
  · exact absurd hc (by simp)
  obtain ⟨elock, epoll, configLoad, clock, locate, spawnResult⟩ := e
  cases elock
  · exact absurd hel (by simp)
  obtain ⟨eslock, espoll⟩ := es
  cases eslock
  · exact absurd hesl (by simp)
  obtain ⟨evlock, killResult⟩ := ev
  refine ⟨?_, ?_, ?_, ?_⟩
  · rcases epoll with _ | _ | _ <;> rcases info with _ | i0 <;>
      simp only [SidecarManager.start, reconcile, Bool.true_eq_false,
        if_false] <;>
      first
        | rfl
        | exact startAfterReconcile_trace_head _ _ _ _
  · rcases espoll with _ | _ | _ <;> rfl
  · intro hpv
    rcases hpv with h | h <;> subst h <;> rfl
  · cases evlock <;> rcases killResult with _ | _ <;> rfl

/-- Claim C4, witness: concrete state holding child `1`, a start and a
status call that poll first, an exited poll clearing the state, and a stop
call that performs no poll. -/
theorem C4_witness :
    (⟨some 1, some sampleInfo⟩ : SidecarState).child.isSome = true ∧
    sampleStartEnv.lockOk = true ∧
    (⟨true, .exited⟩ : StatusEnv).lockOk = true ∧
    ((SidecarManager.start sampleStartEnv
        ⟨some 1, some sampleInfo⟩).2.2.head?
        = some (.tryWaitEv sampleStartEnv.poll) ∧
     (SidecarManager.status ⟨true, .exited⟩
        ⟨some 1, some sampleInfo⟩).2.2.head?
        = some (.tryWaitEv (⟨true, .exited⟩ : StatusEnv).poll) ∧
     ((PollResult.exited = .exited ∨ PollResult.exited = .pollError) →
        (reconcile .exited ⟨some 1, some sampleInfo⟩).1 = initialState) ∧
     pollCount (SidecarManager.stop ⟨true, .ok ()⟩
        ⟨some 1, some sampleInfo⟩).2.2 = 0) :=
  ⟨rfl, rfl, rfl,
   C4_reconcile_policy ⟨some 1, some sampleInfo⟩ sampleStartEnv
     ⟨true, .exited⟩ ⟨true, .ok ()⟩ .exited rfl rfl rfl⟩

/-- A locate environment where the `which` probe ran but found nothing,
`HOME` is unset, and `/usr/local/bin/openclaw` exists on disk. -/
def sampleMissingHomeEnv : LocateEnv :=
  { whichOutput := some (false, "")
    home := none
    pathExists := fun p => p == "/usr/local/bin/openclaw" }

/-- Claim C5, counterexample.  The claim says `locate()` returns absent
only if none of the candidate paths exists.  In the concrete environment
where `which` found nothing and `HOME` is unset, `find_openclaw` returns
`none` even though the fixed candidate `/usr/local/bin/openclaw` exists
(the `?` on `std::env::var("HOME")` aborts the whole search). -/
theorem C5_counterexample :
    find_openclaw sampleMissingHomeEnv = none ∧
    sampleMissingHomeEnv.pathExists "/usr/local/bin/openclaw" = true :=
  ⟨rfl, rfl⟩

/-- Claim C5, amended.  Provided the `which` probe produced an output and
`HOME` is set: if `which` succeeded with nonempty trimmed stdout, that
path is returned; otherwise `find_openclaw` returns the first existing
path of the fixed candidate list, and returns absent exactly when no
fixed candidate exists.  (When the `which` probe itself fails to run, or
`HOME` is unset, the search is aborted with absent regardless of the
filesystem.  Determinism holds by construction: the embedding is a pure
function of the environment.) -/
theorem C5_locator_first_match (env : LocateEnv) (ok : Bool)
    (out home : String)
    (hw : env.whichOutput = some (ok, out)) (hh : env.home = some home) :
    (ok = true → trimStr out ≠ "" → find_openclaw env = some (trimStr out)) ∧
    ((ok = false ∨ trimStr out = "") →
      ((find_openclaw env = none ↔
          ∀ l ∈ npm_locations home, env.pathExists l = false) ∧
       ∀ p, find_openclaw env = some p →
         env.pathExists p = true ∧
         ∃ pre post, npm_locations home = pre ++ p :: post ∧
           ∀ l ∈ pre, env.pathExists l = false)) := by
  have hbody : ∀ (_ : ok = false ∨ trimStr out = ""),
      find_openclaw env = (npm_locations home).find? env.pathExists := by
    intro hmiss
    rcases hmiss with h | h
    · subst h
      simp [find_openclaw, hw, hh]
    · simp [find_openclaw, hw, hh, h]
  constructor
  · intro hok hne
    subst hok
    simp [find_openclaw, hw, hne]
  · intro hmiss
    rw [hbody hmiss]
    constructor
    · constructor
      · intro hn l hl
        simpa using List.find?_eq_none.mp hn l hl
      · intro hall
        apply List.find?_eq_none.mpr
        intro x hx
        simp [hall x hx]
    · intro p hp
      exact ⟨List.find?_some hp, find?_some_first _ _ _ hp⟩

/-- Claim C5, witness: in `sampleLocate` the `which` probe succeeded with
`/usr/local/bin/openclaw` (plus a trailing newline) and `HOME` is set, so
the resolver returns the trimmed which path. -/
theorem C5_witness :
    sampleLocate.whichOutput = some (true, "/usr/local/bin/openclaw\n") ∧
    sampleLocate.home = some "/root" ∧
    ((true = true → trimStr "/usr/local/bin/openclaw\n" ≠ "" →
        find_openclaw sampleLocate
          = some (trimStr "/usr/local/bin/openclaw\n")) ∧
     ((true = false ∨ trimStr "/usr/local/bin/openclaw\n" = "") →
       ((find_openclaw sampleLocate = none ↔
           ∀ l ∈ npm_locations "/root", sampleLocate.pathExists l = false) ∧
        ∀ p, find_openclaw sampleLocate = some p →
          sampleLocate.pathExists p = true ∧
          ∃ pre post, npm_locations "/root" = pre ++ p :: post ∧
            ∀ l ∈ pre, sampleLocate.pathExists l = false))) :=
  ⟨rfl, rfl,
   C5_locator_first_match sampleLocate true "/usr/local/bin/openclaw\n"
     "/root" rfl rfl⟩

/-- Claim C6, counterexample.  The claim says two consecutive
start→stop→start cycles always produce distinct tokens.  When the two
spawns observe the same wall-clock reading (1s, 2ns), both cycles return
the very same token `"sclw-12"`; moreover even distinct readings can
collide, because the hex renderings of seconds and nanoseconds are
concatenated without a separator: (1s, 35ns) and (18s, 3ns) both render
to `"sclw-123"`. -/
theorem C6_counterexample :
    (SidecarManager.start sampleStartEnv initialState).1
      = .ok (mkGatewayInfo 18789 "sclw-12") ∧
    (SidecarManager.start sampleStartEnv
        (SidecarManager.stop ⟨true, .ok ()⟩
          (SidecarManager.start sampleStartEnv initialState).2.1).2.1).1
      = .ok (mkGatewayInfo 18789 "sclw-12") ∧
    generate_token (some ⟨1, 35⟩) = generate_token (some ⟨18, 3⟩) :=
  ⟨rfl, rfl, rfl⟩

/-- Claim C6, amended.  Two consecutive start→stop→start cycles (each
start succeeding by an actual spawn) produce distinct tokens provided the
two spawns' wall-clock readings agree on the seconds and differ in the hex
rendering of the nanoseconds; readings that render identically — in
particular identical readings, or the zero fallback twice — produce equal
tokens. -/
theorem C6_token_fresh (e1 e2 : StartEnv) (ev : StopEnv)
    (st : SidecarState) (i1 i2 : GatewayInfo) (d1 d2 : Duration)
    (hc1 : e1.clock = some d1) (hc2 : e2.clock = some d2)
    (h1 : (SidecarManager.start e1 st).1 = .ok i1)
    (hsp1 : spawnCount (SidecarManager.start e1 st).2.2 = 1)
    (h2 : (SidecarManager.start e2
        (SidecarManager.stop ev
          (SidecarManager.start e1 st).2.1).2.1).1 = .ok i2)
    (hsp2 : spawnCount (SidecarManager.start e2
        (SidecarManager.stop ev
          (SidecarManager.start e1 st).2.1).2.1).2.2 = 1)
    (hsecs : d1.secs = d2.secs)
    (hnanos : hexStr d1.nanos ≠ hexStr d2.nanos) :
    i1.token ≠ i2.token := by
  obtain ⟨cfg1, c1, _, _, hi1, _⟩ := start_ok_spawn e1 st i1 h1 hsp1
  obtain ⟨cfg2, c2, _, _, hi2, _⟩ := start_ok_spawn e2 _ i2 h2 hsp2
  subst hi1
  subst hi2
  intro heq
  apply hnanos
  simp only [mkGatewayInfo] at heq
  rw [hc1, hc2] at heq
  simp only [generate_token, Option.getD_some] at heq
  rw [hsecs] at heq
  apply String.ext
  have hd := congrArg String.data heq
  simp only [String.data_append] at hd
  rw [List.append_assoc, List.append_assoc] at hd
  exact List.append_cancel_left (List.append_cancel_left hd)

/-- Like `sampleStartEnv`, with a later clock reading in the same second. -/
def sampleStartEnv2 : StartEnv :=
  { sampleStartEnv with clock := some ⟨1, 3⟩ }

/-- Claim C6, witness: a concrete pair of cycles whose spawns read the
clock at (1s, 2ns) and (1s, 3ns) produce the distinct tokens `"sclw-12"`
and `"sclw-13"`. -/
theorem C6_witness :
    sampleStartEnv.clock = some ⟨1, 2⟩ ∧
    sampleStartEnv2.clock = some ⟨1, 3⟩ ∧
    (SidecarManager.start sampleStartEnv initialState).1
      = .ok (mkGatewayInfo 18789 "sclw-12") ∧
    spawnCount (SidecarManager.start sampleStartEnv initialState).2.2 = 1 ∧
    (SidecarManager.start sampleStartEnv2
        (SidecarManager.stop ⟨true, .ok ()⟩
          (SidecarManager.start sampleStartEnv initialState).2.1).2.1).1
      = .ok (mkGatewayInfo 18789 "sclw-13") ∧
    spawnCount (SidecarManager.start sampleStartEnv2
        (SidecarManager.stop ⟨true, .ok ()⟩
          (SidecarManager.start sampleStartEnv initialState).2.1).2.1).2.2
      = 1 ∧
    (1 : Nat) = 1 ∧
    hexStr 2 ≠ hexStr 3 ∧
    (mkGatewayInfo 18789 "sclw-12").token
      ≠ (mkGatewayInfo 18789 "sclw-13").token :=
  ⟨rfl, rfl, rfl, rfl, rfl, rfl, rfl, by decide,
   C6_token_fresh sampleStartEnv sampleStartEnv2 ⟨true, .ok ()⟩
     initialState (mkGatewayInfo 18789 "sclw-12")
     (mkGatewayInfo 18789 "sclw-13") ⟨1, 2⟩ ⟨1, 3⟩
     rfl rfl rfl rfl rfl rfl rfl (by decide)⟩

end Simplestclaw
